import Mathlib

/-!
Verification development for the SlurmSpawner job-lifecycle core
(`slurmspawner/slurmspawner.py`).  The Python string operations that the
module relies on (`str.strip`, `str.split(' ')`, `str.split()`, the `in`
substring test) are modelled at the character-list level, and each function
of the module that the specification describes is embedded as an executable
Lean definition over those primitives.  External commands (`squeue`,
`sbatch`, `scancel`, `host`) are modelled by an environment of functions
from the queried argument to the raw standard output the command produces.
-/

namespace SlurmSpawner

/-- Python whitespace characters, the set used by `str.strip` and `str.split`
with no arguments. -/
def pyIsSpaceChar (c : Char) : Bool :=
  c == ' ' || c == '\t' || c == '\n' || c == '\r' || c == '\x0b' || c == '\x0c'

/-- Drop the longest run of characters satisfying `p` from the front. -/
def dropWhileB (p : Char → Bool) : List Char → List Char
  | [] => []
  | c :: cs => if p c then dropWhileB p cs else c :: cs

/-- Character-list model of Python `str.strip()`: remove leading and trailing
whitespace. -/
def pyStripList (l : List Char) : List Char :=
  (dropWhileB pyIsSpaceChar (dropWhileB pyIsSpaceChar l).reverse).reverse

/-- Python `str.strip()` on strings. -/
def pyStrip (s : String) : String := ⟨pyStripList s.data⟩

/-- Split on every character satisfying `p`, keeping empty fields: the
semantics of Python `str.split(sep)` with an explicit separator.  The result
is always non-empty (`"".split(' ') == ['']`). -/
def splitP (p : Char → Bool) : List Char → List (List Char)
  | [] => [[]]
  | c :: cs =>
    if p c then [] :: splitP p cs
    else
      match splitP p cs with
      | [] => [[c]]
      | f :: rest => (c :: f) :: rest

/-- Last element of a list, with a default for the empty list: the model of
Python `lst[-1]` at call sites where the list is never empty. -/
def lastOr {α : Type _} (d : α) : List α → α
  | [] => d
  | [a] => a
  | _ :: a :: rest => lastOr d (a :: rest)

/-- Python substring test `pat in s`. -/
def pyIn (pat s : String) : Bool :=
  s.data.tails.any (fun t => pat.data.isPrefixOf t)

/-- The last token of `s` when split on single space characters, Python
`s.split(' ')[-1]` (the list is never empty, so the index never faults). -/
def lastSpaceToken (s : String) : String :=
  ⟨lastOr [] (splitP (fun c => c == ' ') s.data)⟩

/-- Python `s.split()`: split on whitespace runs, dropping empty fields. -/
def pySplitWsTokens (s : String) : List String :=
  ((splitP pyIsSpaceChar s.data).filter (fun w => !w.isEmpty)).map
    (fun w => (⟨w⟩ : String))

/-- Second component of `popen.communicate()` in `run_command`
(slurmspawner.py line 39): the process is opened with `stdout=subprocess.PIPE`
but stderr is not redirected, so `communicate` always yields `None` for the
error stream. -/
def communicate_stderr : Option String := none

/-- The branch structure of `run_command` (lines 40-44): if the error-stream
component is not `None` it is returned as-is, otherwise the decoded standard
output is trimmed and returned. -/
def run_command_branch (stdout : String) : Option String → String
  | some err => err
  | none => pyStrip stdout

/-- `run_command(cmd)` (lines 37-44), as a function of the raw standard
output the spawned command produces. -/
def run_command (stdout : String) : String :=
  run_command_branch stdout communicate_stderr

/-- The persisted spawner identity: `slurm_job_id` and `slurm_port`
attributes of `SlurmSpawner`.  The job id is an `Option` so that the Python
`in (None, "")` and `is not None` tests can be rendered faithfully. -/
structure SpawnerState where
  slurm_job_id : Option String
  slurm_port : String
deriving DecidableEq

/-- `clear_state` (lines 97-101): both identity fields are reset to the
empty string. -/
def clear_state (_s : SpawnerState) : SpawnerState := ⟨some "", ""⟩

/-- Raw standard output of each external command, as a function of the
argument interpolated into the command line. -/
structure SlurmEnv where
  squeue_state : String → String
  squeue_node : String → String
  host_out : String → String
  scancel_out : String → String

/-- `check_slurm_job_state` (lines 144-155): with an empty or absent job id
return `""` without running `squeue`; otherwise return the output of
`squeue -h -j ID -o %T`.  The second component counts external command
invocations made by the call. -/
def check_slurm_job_state (env : SlurmEnv) (s : SpawnerState) : String × Nat :=
  match s.slurm_job_id with
  | none => ("", 0)
  | some id => if id = "" then ("", 0) else (run_command (env.squeue_state id), 1)

/-- The three behaviour classes the module distinguishes when it examines a
status-query output (wait loop lines 296-303 and `poll` line 398). -/
inductive JobClass
  | Running
  | Pending
  | Other
deriving DecidableEq

/-- The classification the code applies to a status-query output: the
substring tests of lines 296-303 (`'RUNNING' in job_state`,
`'PENDING' in job_state`, final else branch). -/
def classify_state (out : String) : JobClass :=
  if pyIn "RUNNING" out then JobClass.Running
  else if pyIn "PENDING" out then JobClass.Pending
  else JobClass.Other

/-- State enumeration named by the specification (§3, §4.3). -/
inductive SpecJobState
  | Running
  | Pending
  | Terminal
  | Unknown
deriving DecidableEq

/-- Classification map written from the specification's words (§4.3), for
comparison with the classification the code performs: `RUNNING` to Running,
`PENDING` or `CONFIGURING` to Pending, the four terminal tokens to Terminal,
anything else to Unknown. -/
def spec_classify (tok : String) : SpecJobState :=
  if tok = "RUNNING" then SpecJobState.Running
  else if tok = "PENDING" ∨ tok = "CONFIGURING" then SpecJobState.Pending
  else if tok = "CANCELLED" ∨ tok = "COMPLETED" ∨ tok = "FAILED" ∨
      tok = "COMPLETING" then SpecJobState.Terminal
  else SpecJobState.Unknown

/-- Outcome of the submission wait loop. -/
inductive WaitOutcome
  | success
  | failure
deriving DecidableEq

/-- The wait loop of `_run_jupyterhub_singleuser` (lines 294-303), driven by
the current `job_state` and the scripted outputs of the subsequent
`check_slurm_job_state` calls.  The second component records the argument of
each `time.sleep` call (line 300).  When the script of responses is
exhausted while the loop still wants to re-query, the outcome is `none`. -/
def wait_loop : List String → String → Option WaitOutcome × List Nat
  | [], st =>
    if pyIn "RUNNING" st then (some WaitOutcome.success, [])
    else if pyIn "PENDING" st then (none, [])
    else (some WaitOutcome.failure, [])
  | r :: rs, st =>
    if pyIn "RUNNING" st then (some WaitOutcome.success, [])
    else if pyIn "PENDING" st then ((wait_loop rs r).1, 1 :: (wait_loop rs r).2)
    else (some WaitOutcome.failure, [])

/-- Job-id parsing of `_run_jupyterhub_singleuser` (lines 287-290): the
submission acknowledgement is stripped, decoded and split on single spaces,
and the last element is recorded as the job id. -/
def sbatch_job_id (ack : String) : String :=
  lastSpaceToken (pyStrip ack)

/-- The last whitespace-separated token of a reply, following the claim's
words (for comparison with `sbatch_job_id`). -/
def lastWsToken (s : String) : String :=
  ⟨lastOr [] ((splitP pyIsSpaceChar s.data).filter (fun w => !w.isEmpty))⟩

/-- `query_slurm_by_jobname` (lines 169-187), as a function of the output the
filtered `squeue` query produces.  The output is stripped and split on
whitespace; with no tokens the pair of empty identifiers is returned, and
otherwise elements 0 and 1 are returned — with exactly one token the access
`output_list[1]` is out of bounds, rendered here as `none`. -/
def query_slurm_by_jobname (out : String) : Option (String × String) :=
  match pySplitWsTokens (pyStrip out) with
  | [] => some ("", "")
  | [_] => none
  | jobid :: port :: _ => some (jobid, port)

/-- `get_slurm_job_info` (lines 313-325): query `squeue -h -j ID -o %N` for
the node name; if it is empty return `(None, None)`; otherwise run
`host NODENAME` and return the last space-separated token of its output as
the address, paired with the node name.  The final component records the
argument of each `host` invocation. -/
def get_slurm_job_info (env : SlurmEnv) (jobid : String) :
    (Option String × Option String) × List String :=
  let node_name : String := pyStrip (env.squeue_node jobid)
  if node_name = "" then ((none, none), [])
  else
    ((some (lastSpaceToken (pyStrip (env.host_out node_name))), some node_name),
      [node_name])

/-- `poll` (lines 393-409): with a job id that is not `None`, query the job
state; if the output contains `RUNNING` or `PENDING` keep the state and
return `None` (alive), else clear the state and return `1` (not alive).
With job id `None` the first branch is skipped and the falsiness test of
line 406 clears the state and returns `1`. -/
def poll (env : SlurmEnv) (s : SpawnerState) : SpawnerState × Option Nat :=
  match s.slurm_job_id with
  | some _ =>
    let st := (check_slurm_job_state env s).1
    if pyIn "RUNNING" st || pyIn "PENDING" st then (s, none)
    else (clear_state s, some 1)
  | none => (clear_state s, some 1)

/-- The terminal-token membership test of `_stop_slurm_job` line 129:
`job_state in ("CANCELLED", "COMPLETED", "FAILED", "COMPLETING")`. -/
def isTerminalToken (s : String) : Bool :=
  s == "CANCELLED" || s == "COMPLETED" || s == "FAILED" || s == "COMPLETING"

/-- `_stop_slurm_job` (lines 119-135): with an empty or absent job id return
`True` without running `scancel`; otherwise run `scancel ID` and report
whether its output is one of the four terminal tokens.  The second component
counts `scancel` invocations. -/
def stop_slurm_job_once (env : SlurmEnv) (s : SpawnerState) : Bool × Nat :=
  match s.slurm_job_id with
  | none => (true, 0)
  | some id =>
    if id = "" then (true, 0)
    else (isTerminalToken (run_command (env.scancel_out id)), 1)

/-- `stop` (lines 443-452): when `now` is false, call `stop_slurm_job`; if it
reports the job not stopped, call it once more; in every case finish with
`clear_state`.  The second component counts `scancel` invocations over the
whole call. -/
def stop (env : SlurmEnv) (s : SpawnerState) (now : Bool) : SpawnerState × Nat :=
  if now then (clear_state s, 0)
  else
    let r1 := stop_slurm_job_once env s
    if r1.1 then (clear_state s, r1.2)
    else
      let r2 := stop_slurm_job_once env s
      (clear_state s, r1.2 + r2.2)

/-! ## Helper lemmas -/

theorem wait_loop_sleeps_one :
    ∀ (rest : List String) (st : String), ∀ d ∈ (wait_loop rest st).2, d = 1 := by
  intro rest
  induction rest with
  | nil =>
    intro st d hd
    simp only [wait_loop] at hd
    split at hd <;> simp_all
    split at hd <;> simp_all
  | cons r rs ih =>
    intro st d hd
    simp only [wait_loop] at hd
    split at hd
    · simp_all
    · split at hd
      · rcases List.mem_cons.mp hd with h1 | h1
        · exact h1
        · exact ih r d h1
      · simp_all

/-! ## C1: the submission wait loop -/

/-- C1: after the job id is parsed the wait loop classifies the current
status output with the substring tests of lines 296-303: on a state
containing `RUNNING` it breaks with success at once; on a state containing
`PENDING` it re-queries (consuming the next scripted response) and sleeps
exactly 1 second before the next iteration; on any other state — the
terminal tokens, unrecognized output and empty output alike — it fails the
submission immediately, with no further queries and no sleeps. -/
theorem wait_loop_policy (st : String) (rest : List String) :
    (pyIn "RUNNING" st = true →
      wait_loop rest st = (some WaitOutcome.success, [])) ∧
    (pyIn "RUNNING" st = false → pyIn "PENDING" st = false →
      wait_loop rest st = (some WaitOutcome.failure, [])) ∧
    (∀ r rs, rest = r :: rs → pyIn "RUNNING" st = false →
      pyIn "PENDING" st = true →
      wait_loop rest st = ((wait_loop rs r).1, 1 :: (wait_loop rs r).2)) ∧
    (∀ d ∈ (wait_loop rest st).2, d = 1) := by
  refine ⟨?_, ?_, ?_, wait_loop_sleeps_one rest st⟩
  · intro h
    cases rest <;> simp [wait_loop, h]
  · intro h1 h2
    cases rest <;> simp [wait_loop, h1, h2]
  · intro r rs hrest h1 h2
    subst hrest
    simp [wait_loop, h1, h2]

/-- Witness for C1 at concrete inputs: a running state succeeds at once, a
failed state fails at once, and a pending state consumes one more query and
sleeps 1 second. -/
theorem wait_loop_policy_witness :
    wait_loop [] "RUNNING" = (some WaitOutcome.success, []) ∧
    wait_loop [] "FAILED" = (some WaitOutcome.failure, []) ∧
    wait_loop ["RUNNING"] "PENDING" =
      ((wait_loop [] "RUNNING").1, 1 :: (wait_loop [] "RUNNING").2) := by
  refine ⟨(wait_loop_policy "RUNNING" []).1 (by decide),
    (wait_loop_policy "FAILED" []).2.1 (by decide) (by decide),
    (wait_loop_policy "PENDING" ["RUNNING"]).2.2.1 "RUNNING" [] rfl
      (by decide) (by decide)⟩

/-! ## C2: classification of status-query output -/

/-- C2 counterexample: the claim maps `CONFIGURING` to Pending, but the code
recognizes only the substrings `RUNNING` and `PENDING`; `CONFIGURING`
contains neither, so it falls into the final else branch, and the wait loop
fails immediately on it instead of retrying. -/
theorem configuring_not_pending :
    spec_classify "CONFIGURING" = SpecJobState.Pending ∧
    classify_state "CONFIGURING" = JobClass.Other ∧
    wait_loop ["RUNNING"] "CONFIGURING" = (some WaitOutcome.failure, []) := by
  decide

/-- C2 amended: the code classifies status output by substring containment:
`RUNNING` maps to Running and `PENDING` to Pending, while `CONFIGURING`, the
four terminal tokens and empty output all fall into the same unrecognized
class, treated as failure — the monitor path never distinguishes Terminal
from Unknown.  Separately, the stop path recognizes exactly the four tokens
`CANCELLED`, `COMPLETED`, `FAILED`, `COMPLETING` by string equality. -/
theorem classify_state_code_map :
    classify_state "RUNNING" = JobClass.Running ∧
    classify_state "PENDING" = JobClass.Pending ∧
    classify_state "CONFIGURING" = JobClass.Other ∧
    classify_state "CANCELLED" = JobClass.Other ∧
    classify_state "COMPLETED" = JobClass.Other ∧
    classify_state "FAILED" = JobClass.Other ∧
    classify_state "COMPLETING" = JobClass.Other ∧
    classify_state "" = JobClass.Other ∧
    isTerminalToken "CANCELLED" = true ∧
    isTerminalToken "COMPLETED" = true ∧
    isTerminalToken "FAILED" = true ∧
    isTerminalToken "COMPLETING" = true ∧
    isTerminalToken "RUNNING" = false ∧
    isTerminalToken "PENDING" = false ∧
    isTerminalToken "" = false := by
  decide

theorem poll_none_id (env : SlurmEnv) (port : String) :
    poll env ⟨none, port⟩ = (⟨some "", ""⟩, some 1) := rfl

theorem poll_empty_id (env : SlurmEnv) (port : String) :
    poll env ⟨some "", port⟩ = (⟨some "", ""⟩, some 1) := by
  simp [poll, check_slurm_job_state, clear_state,
    show pyIn "RUNNING" "" = false by decide,
    show pyIn "PENDING" "" = false by decide]

/-! ## C3: poll transitions -/

/-- C3: with a recorded non-empty job id, `poll` keeps the stored identity
unchanged and signals alive (`None`) when the queried state contains
`RUNNING` or `PENDING`, and clears both identity fields and signals not
alive (`1`) on anything else; with no recorded job id (absent or empty),
`poll` signals not alive, and calling it again on the resulting state again
signals not alive. -/
theorem poll_transitions (env : SlurmEnv) (s : SpawnerState) :
    (∀ id, s.slurm_job_id = some id → id ≠ "" →
      (pyIn "RUNNING" (run_command (env.squeue_state id)) ||
        pyIn "PENDING" (run_command (env.squeue_state id))) = true →
      poll env s = (s, none)) ∧
    (∀ id, s.slurm_job_id = some id → id ≠ "" →
      (pyIn "RUNNING" (run_command (env.squeue_state id)) ||
        pyIn "PENDING" (run_command (env.squeue_state id))) = false →
      poll env s = (clear_state s, some 1)) ∧
    ((s.slurm_job_id = none ∨ s.slurm_job_id = some "") →
      (poll env s).2 = some 1 ∧ (poll env s).1 = clear_state s ∧
      (poll env (poll env s).1).2 = some 1) := by
  obtain ⟨jid, port⟩ := s
  refine ⟨?_, ?_, ?_⟩
  · intro id hid hne hq
    cases jid with
    | none => cases hid
    | some j =>
      obtain rfl : j = id := by cases hid; rfl
      rw [Bool.or_eq_true] at hq
      rcases hq with hq | hq <;> simp [poll, check_slurm_job_state, hne, hq]
  · intro id hid hne hq
    cases jid with
    | none => cases hid
    | some j =>
      obtain rfl : j = id := by cases hid; rfl
      rw [Bool.or_eq_false_iff] at hq
      simp [poll, check_slurm_job_state, hne, hq.1, hq.2]
  · intro h
    rcases h with h | h
    · have hj : jid = none := h
      subst hj
      exact ⟨by simp [poll_none_id], by simp [poll_none_id, clear_state],
        by simp [poll_none_id, poll_empty_id]⟩
    · have hj : jid = some "" := h
      subst hj
      exact ⟨by simp [poll_empty_id], by simp [poll_empty_id, clear_state],
        by simp [poll_empty_id]⟩

/-- Witness for C3 at concrete inputs: a running job stays attached and
alive, a failed job is cleared, and a spawner with no job id reports not
alive and clears. -/
theorem poll_transitions_witness :
    poll ⟨fun _ => "RUNNING", fun _ => "", fun _ => "", fun _ => ""⟩
      ⟨some "209", "8891"⟩ = (⟨some "209", "8891"⟩, none) ∧
    poll ⟨fun _ => "FAILED", fun _ => "", fun _ => "", fun _ => ""⟩
      ⟨some "209", "8891"⟩ = (⟨some "", ""⟩, some 1) ∧
    (poll ⟨fun _ => "RUNNING", fun _ => "", fun _ => "", fun _ => ""⟩
      ⟨none, "8891"⟩).2 = some 1 := by
  refine ⟨(poll_transitions _ _).1 "209" rfl (by decide) (by decide),
    (poll_transitions _ _).2.1 "209" rfl (by decide) (by decide),
    ((poll_transitions ⟨fun _ => "RUNNING", fun _ => "", fun _ => "",
      fun _ => ""⟩ ⟨none, "8891"⟩).2.2 (Or.inl rfl)).1⟩

/-! ## C4: job discovery by name -/

/-- C4: `query_slurm_by_jobname` returns the pair of empty identifiers —
not an error — when the filtered query output holds no tokens; whenever the
output's first two whitespace tokens are a job id and a port (one matching
line, or several whose first supplies the leading tokens) it returns that
first pair; concretely, one matching line yields its own pair and a
two-line output yields the first line's pair. -/
theorem query_by_jobname_matches (out : String) :
    (pySplitWsTokens (pyStrip out) = [] →
      query_slurm_by_jobname out = some ("", "")) ∧
    (∀ jobid port rest, pySplitWsTokens (pyStrip out) = jobid :: port :: rest →
      query_slurm_by_jobname out = some (jobid, port)) ∧
    query_slurm_by_jobname "" = some ("", "") ∧
    query_slurm_by_jobname "209 8891" = some ("209", "8891") ∧
    query_slurm_by_jobname "209 8891\n210 8892" = some ("209", "8891") := by
  refine ⟨?_, ?_, by decide, by decide, by decide⟩
  · intro h
    simp [query_slurm_by_jobname, h]
  · intro jobid port rest h
    simp [query_slurm_by_jobname, h]

/-- Witness for C4 at concrete inputs: an empty listing yields empty
identifiers and a two-line listing yields the first line's pair. -/
theorem query_by_jobname_matches_witness :
    query_slurm_by_jobname "" = some ("", "") ∧
    query_slurm_by_jobname "209 8891\n210 8892" = some ("209", "8891") := by
  refine ⟨(query_by_jobname_matches "").1 (by decide),
    (query_by_jobname_matches "209 8891\n210 8892").2.1 "209" "8891"
      ["210", "8892"] (by decide)⟩

/-! ## C5: the empty-job-id guard of the state query -/

/-- C5: with an absent or empty job id, `check_slurm_job_state` returns the
empty output — which the code's classification places in the unrecognized
class — and issues no external command at all. -/
theorem check_state_empty_guard (env : SlurmEnv) (s : SpawnerState)
    (h : s.slurm_job_id = none ∨ s.slurm_job_id = some "") :
    check_slurm_job_state env s = ("", 0) ∧
    classify_state "" = JobClass.Other := by
  rcases h with h | h <;>
    simp [check_slurm_job_state, h, classify_state] <;> decide

/-- Witness for C5: a spawner whose job id is the empty string queries
nothing and gets the empty classification. -/
theorem check_state_empty_guard_witness :
    check_slurm_job_state
      ⟨fun _ => "RUNNING", fun _ => "", fun _ => "", fun _ => ""⟩
      ⟨some "", "8891"⟩ = ("", 0) := by
  exact (check_state_empty_guard _ _ (Or.inr rfl)).1

/-! ## C6: stop -/

/-- C6 counterexample: a graceful `stop` on a spawner whose recorded job id
is empty issues zero cancel commands — `_stop_slurm_job` returns `True`
immediately on an empty id — contradicting the claim that a cancel command
is issued on every graceful call.  Identity is still cleared. -/
theorem stop_graceful_no_job_counterexample :
    stop ⟨fun _ => "", fun _ => "", fun _ => "", fun _ => ""⟩
      ⟨some "", "8891"⟩ false = (⟨some "", ""⟩, 0) := by
  decide

theorem stop_eq (env : SlurmEnv) (s : SpawnerState) (now : Bool) :
    stop env s now =
      (clear_state s,
        if now then 0
        else if (stop_slurm_job_once env s).1 then (stop_slurm_job_once env s).2
        else (stop_slurm_job_once env s).2 + (stop_slurm_job_once env s).2) := by
  unfold stop
  by_cases h : now
  · simp [h]
  · by_cases h2 : (stop_slurm_job_once env s).1 <;> simp [h, h2]

theorem stop_once_count (env : SlurmEnv) (s : SpawnerState) :
    (stop_slurm_job_once env s).2 ≤ 1 := by
  rcases hs : s.slurm_job_id with _ | j
  · simp [stop_slurm_job_once, hs]
  · by_cases hj : j = "" <;> simp [stop_slurm_job_once, hs, hj]

theorem stop_once_none (env : SlurmEnv) (port : String) :
    stop_slurm_job_once env ⟨none, port⟩ = (true, 0) := rfl

theorem stop_once_empty (env : SlurmEnv) (port : String) :
    stop_slurm_job_once env ⟨some "", port⟩ = (true, 0) := by
  simp [stop_slurm_job_once]

theorem stop_once_nonempty (env : SlurmEnv) (port : String) (j : String)
    (hj : j ≠ "") :
    stop_slurm_job_once env ⟨some j, port⟩ =
      (isTerminalToken (run_command (env.scancel_out j)), 1) := by
  simp [stop_slurm_job_once, hj]

/-- C6 amended: in the graceful case with a non-empty recorded job id a
cancel command is issued and its result checked against the terminal tokens;
if not terminal, exactly one more cancel is issued — never more than 2 in
total; with no recorded job id the graceful case issues no cancel; the
non-graceful case issues no cancel; and in every case `stop` finishes by
clearing the stored identity regardless of the final observed state. -/
theorem stop_policy (env : SlurmEnv) (s : SpawnerState) (now : Bool) :
    (stop env s now).1 = clear_state s ∧
    (stop env s now).2 ≤ 2 ∧
    (now = true → (stop env s now).2 = 0) ∧
    (now = false → (s.slurm_job_id = none ∨ s.slurm_job_id = some "") →
      (stop env s now).2 = 0) ∧
    (∀ id, now = false → s.slurm_job_id = some id → id ≠ "" →
      (isTerminalToken (run_command (env.scancel_out id)) = true →
        (stop env s now).2 = 1) ∧
      (isTerminalToken (run_command (env.scancel_out id)) = false →
        (stop env s now).2 = 2)) := by
  obtain ⟨jid, port⟩ := s
  refine ⟨by rw [stop_eq], ?_, ?_, ?_, ?_⟩
  · rw [stop_eq]
    have hc := stop_once_count env ⟨jid, port⟩
    dsimp only
    split
    · omega
    · split <;> omega
  · intro h
    subst h
    rw [stop_eq]
    simp
  · intro h hj
    subst h
    rw [stop_eq]
    rcases hj with hj | hj
    · have hn : jid = none := hj
      subst hn
      simp [stop_once_none]
    · have hn : jid = some "" := hj
      subst hn
      simp [stop_once_empty]
  · intro id h hid hne
    subst h
    have hn : jid = some id := hid
    subst hn
    constructor
    · intro ht
      rw [stop_eq]
      simp [stop_once_nonempty env port id hne, ht]
    · intro ht
      rw [stop_eq]
      simp [stop_once_nonempty env port id hne, ht]

/-- Witness for C6 at concrete inputs: a graceful stop whose cancel output is
terminal issues one cancel, one whose cancel output is not terminal issues
two, a non-graceful stop issues none, and all clear the identity. -/
theorem stop_policy_witness :
    stop ⟨fun _ => "", fun _ => "", fun _ => "", fun _ => "CANCELLED"⟩
      ⟨some "209", "8891"⟩ false = (⟨some "", ""⟩, 1) ∧
    stop ⟨fun _ => "", fun _ => "", fun _ => "", fun _ => "RUNNING"⟩
      ⟨some "209", "8891"⟩ false = (⟨some "", ""⟩, 2) ∧
    stop ⟨fun _ => "", fun _ => "", fun _ => "", fun _ => ""⟩
      ⟨some "209", "8891"⟩ true = (⟨some "", ""⟩, 0) := by
  have h1 := stop_policy
    ⟨fun _ => "", fun _ => "", fun _ => "", fun _ => "CANCELLED"⟩
    ⟨some "209", "8891"⟩ false
  have h2 := stop_policy
    ⟨fun _ => "", fun _ => "", fun _ => "", fun _ => "RUNNING"⟩
    ⟨some "209", "8891"⟩ false
  have h3 := stop_policy
    ⟨fun _ => "", fun _ => "", fun _ => "", fun _ => ""⟩
    ⟨some "209", "8891"⟩ true
  refine ⟨?_, ?_, ?_⟩
  · have hc := (h1.2.2.2.2 "209" rfl rfl (by decide)).1 (by decide)
    have hs := h1.1
    exact Prod.ext hs hc
  · have hc := (h2.2.2.2.2 "209" rfl rfl (by decide)).2 (by decide)
    have hs := h2.1
    exact Prod.ext hs hc
  · have hc := h3.2.2.1 rfl
    have hs := h3.1
    exact Prod.ext hs hc

/-! ## C7: parsing the job id from the submission acknowledgement -/

theorem splitP_ne_nil (p : Char → Bool) : ∀ l : List Char, splitP p l ≠ []
  | [] => by simp [splitP]
  | c :: cs => by
    simp only [splitP]
    split
    · simp
    · split
      · simp
      · simp

theorem splitP_congr (p q : Char → Bool) :
    ∀ l : List Char, (∀ c ∈ l, p c = q c) → splitP p l = splitP q l
  | [], _ => rfl
  | c :: cs, h => by
    have hc : p c = q c := h c (List.mem_cons_self c cs)
    have ih := splitP_congr p q cs (fun d hd => h d (List.mem_cons_of_mem c hd))
    simp only [splitP, hc, ih]

theorem mem_dropWhileB (p : Char → Bool) :
    ∀ l : List Char, ∀ c ∈ dropWhileB p l, c ∈ l
  | [], c, hc => by simp [dropWhileB] at hc
  | d :: ds, c, hc => by
    simp only [dropWhileB] at hc
    split at hc
    · exact List.mem_cons_of_mem d (mem_dropWhileB p ds c hc)
    · exact hc

theorem mem_pyStripList (l : List Char) (c : Char) (hc : c ∈ pyStripList l) :
    c ∈ l := by
  unfold pyStripList at hc
  rw [List.mem_reverse] at hc
  have h1 := mem_dropWhileB pyIsSpaceChar (dropWhileB pyIsSpaceChar l).reverse c hc
  rw [List.mem_reverse] at h1
  exact mem_dropWhileB pyIsSpaceChar l c h1

theorem lastOr_cons_of_ne {α : Type _} (d : α) (x : α) (ys : List α)
    (h : ys ≠ []) : lastOr d (x :: ys) = lastOr d ys := by
  cases ys with
  | nil => exact absurd rfl h
  | cons a rest => rfl

theorem splitP_cons_sep (q : Char → Bool) (c : Char) (cs : List Char)
    (hc : q c = true) : splitP q (c :: cs) = [] :: splitP q cs := by
  simp [splitP, hc]

theorem splitP_cons_nonsep (q : Char → Bool) (c : Char) (cs : List Char)
    {f : List Char} {rest : List (List Char)} (hc : q c = false)
    (hS : splitP q cs = f :: rest) :
    splitP q (c :: cs) = (c :: f) :: rest := by
  simp [splitP, hc, hS]

theorem dropWhileB_cons_pos (p : Char → Bool) (c : Char) (cs : List Char)
    (hc : p c = true) : dropWhileB p (c :: cs) = dropWhileB p cs := by
  simp [dropWhileB, hc]

theorem dropWhileB_cons_neg (p : Char → Bool) (c : Char) (cs : List Char)
    (hc : p c = false) : dropWhileB p (c :: cs) = c :: cs := by
  simp [dropWhileB, hc]

theorem splitP_concat_sep (q : Char → Bool) (c : Char) (hc : q c = true) :
    ∀ m : List Char, splitP q (m ++ [c]) = splitP q m ++ [[]]
  | [] => by
    rw [List.nil_append, splitP_cons_sep q c [] hc]
    rfl
  | d :: ds => by
    rw [List.cons_append]
    by_cases hd : q d = true
    · rw [splitP_cons_sep q d _ hd, splitP_cons_sep q d ds hd,
        splitP_concat_sep q c hc ds]
      rfl
    · have hd2 : q d = false := by simpa using hd
      rcases hS : splitP q ds with _ | ⟨f, rest⟩
      · exact absurd hS (splitP_ne_nil q ds)
      · have ih := splitP_concat_sep q c hc ds
        rw [hS, List.cons_append] at ih
        rw [splitP_cons_nonsep q d _ hd2 ih,
          splitP_cons_nonsep q d ds hd2 hS, List.cons_append]

theorem lastOr_splitP_concat_ne_nil (q : Char → Bool) (c : Char)
    (hc : q c = false) :
    ∀ m : List Char, lastOr [] (splitP q (m ++ [c])) ≠ []
  | [] => by
    rw [List.nil_append, splitP_cons_nonsep q c [] hc rfl]
    simp [lastOr]
  | d :: ds => by
    have ih := lastOr_splitP_concat_ne_nil q c hc ds
    rw [List.cons_append]
    by_cases hd : q d = true
    · rw [splitP_cons_sep q d _ hd,
        lastOr_cons_of_ne [] [] _ (splitP_ne_nil q (ds ++ [c]))]
      exact ih
    · have hd2 : q d = false := by simpa using hd
      rcases hS : splitP q (ds ++ [c]) with _ | ⟨f, rest⟩
      · exact absurd hS (splitP_ne_nil q (ds ++ [c]))
      · rw [splitP_cons_nonsep q d _ hd2 hS]
        cases rest with
        | nil => simp [lastOr]
        | cons r rs =>
          rw [hS] at ih
          rw [lastOr_cons_of_ne [] f (r :: rs) (by simp)] at ih
          rw [lastOr_cons_of_ne [] (d :: f) (r :: rs) (by simp)]
          exact ih

theorem filter_splitP_dropLeading (q : Char → Bool) :
    ∀ l : List Char,
      (splitP q (dropWhileB q l)).filter (fun w => !w.isEmpty) =
        (splitP q l).filter (fun w => !w.isEmpty)
  | [] => rfl
  | c :: cs => by
    by_cases hc : q c = true
    · rw [dropWhileB_cons_pos q c cs hc, splitP_cons_sep q c cs hc,
        filter_splitP_dropLeading q cs]
      simp
    · have hc2 : q c = false := by simpa using hc
      rw [dropWhileB_cons_neg q c cs hc2]

theorem filter_splitP_dropTrailing (q : Char → Bool) (m : List Char) :
    (splitP q (dropWhileB q m.reverse).reverse).filter (fun w => !w.isEmpty) =
      (splitP q m).filter (fun w => !w.isEmpty) := by
  induction m using List.reverseRecOn with
  | nil => rfl
  | append_singleton ms c ih =>
    have hrev : (ms ++ [c]).reverse = c :: ms.reverse := by simp
    rw [hrev]
    by_cases hc : q c = true
    · rw [dropWhileB_cons_pos q c ms.reverse hc, ih,
        splitP_concat_sep q c hc ms]
      simp
    · have hc2 : q c = false := by simpa using hc
      rw [dropWhileB_cons_neg q c ms.reverse hc2]
      have hrev2 : (c :: ms.reverse).reverse = ms ++ [c] := by simp
      rw [hrev2]

theorem filter_ne_nil_of_lastOr (f : List Char → Bool) (hf : f [] = false)
    (hfk : ∀ w : List Char, w ≠ [] → f w = true) :
    ∀ xs : List (List Char), lastOr [] xs ≠ [] → xs.filter f ≠ []
  | [], h => by simp [lastOr] at h
  | [x], h => by
    have hx : x ≠ [] := h
    simp [List.filter, hfk x hx]
  | x :: y :: rest, h => by
    rw [lastOr_cons_of_ne [] x (y :: rest) (by simp)] at h
    have ih := filter_ne_nil_of_lastOr f hf hfk (y :: rest) h
    by_cases hx : f x = true
    · simp [List.filter_cons, hx]
    · have hx2 : f x = false := by simpa using hx
      rw [List.filter_cons, if_neg (by simp [hx2])]
      exact ih

theorem lastOr_filter_eq (f : List Char → Bool) (hf : f [] = false)
    (hfk : ∀ w : List Char, w ≠ [] → f w = true) :
    ∀ xs : List (List Char), lastOr [] xs ≠ [] →
      lastOr [] (xs.filter f) = lastOr [] xs
  | [], h => by simp [lastOr] at h
  | [x], h => by
    have hx : x ≠ [] := h
    simp [List.filter, hfk x hx]
  | x :: y :: rest, h => by
    rw [lastOr_cons_of_ne [] x (y :: rest) (by simp)] at h
    have ih := lastOr_filter_eq f hf hfk (y :: rest) h
    have hne := filter_ne_nil_of_lastOr f hf hfk (y :: rest) h
    rw [lastOr_cons_of_ne [] x (y :: rest) (by simp)]
    by_cases hx : f x = true
    · rw [List.filter_cons, if_pos hx,
        lastOr_cons_of_ne [] x ((y :: rest).filter f) hne]
      exact ih
    · have hx2 : f x = false := by simpa using hx
      rw [List.filter_cons, if_neg (by simp [hx2])]
      exact ih

theorem dropWhileB_shape (p : Char → Bool) :
    ∀ l : List Char, dropWhileB p l = [] ∨
      ∃ c cs, dropWhileB p l = c :: cs ∧ p c = false
  | [] => Or.inl rfl
  | c :: cs => by
    by_cases hc : p c = true
    · simpa [dropWhileB, hc] using dropWhileB_shape p cs
    · exact Or.inr ⟨c, cs, by simp [dropWhileB, hc], by simpa using hc⟩

/-- C7 counterexample: the code records `output.split(' ')[-1]`, a split on
single space characters, not on whitespace.  For the acknowledgement
`"Submitted batch job\t209"` — whose final separator is a tab — the code
records `"job\t209"`, while the last whitespace-separated token is `"209"`,
so the claim as stated is false. -/
theorem sbatch_job_id_tab_counterexample :
    sbatch_job_id "Submitted batch job\t209" = "job\t209" ∧
    lastWsToken "Submitted batch job\t209" = "209" ∧
    ("job\t209" : String) ≠ "209" := by
  decide

/-- C7 amended: the recorded job id is the last token of the trimmed
acknowledgement split on single space characters; for every acknowledgement
whose whitespace characters are all literal spaces this coincides with the
last whitespace-separated token of the reply, and in particular the ack
`"Submitted batch job 209"` yields job id `"209"`. -/
theorem sbatch_job_id_space_tokens (ack : String)
    (h : ∀ c ∈ ack.data, pyIsSpaceChar c = true → c = ' ') :
    sbatch_job_id ack = lastWsToken ack ∧
    sbatch_job_id "Submitted batch job 209" = "209" := by
  refine ⟨?_, by decide⟩
  have hpq : ∀ c ∈ ack.data, (fun c => c == ' ') c = pyIsSpaceChar c := by
    intro c hc
    by_cases hq : pyIsSpaceChar c = true
    · have hsp : c = ' ' := h c hc hq
      subst hsp
      decide
    · have hq2 : pyIsSpaceChar c = false := by simpa using hq
      rw [hq2]
      by_cases hp : c = ' '
      · subst hp
        exact absurd (by decide : pyIsSpaceChar ' ' = true) (by simpa using hq)
      · simpa using hp
  show lastSpaceToken (pyStrip ack) = lastWsToken ack
  unfold lastSpaceToken lastWsToken
  refine congrArg String.mk ?_
  have hdata : (pyStrip ack).data = pyStripList ack.data := rfl
  rw [hdata]
  have hsub : ∀ c ∈ pyStripList ack.data,
      (fun c => c == ' ') c = pyIsSpaceChar c :=
    fun c hc => hpq c (mem_pyStripList ack.data c hc)
  rw [splitP_congr (fun c => c == ' ') pyIsSpaceChar (pyStripList ack.data) hsub]
  have hfilter : (splitP pyIsSpaceChar ack.data).filter (fun w => !w.isEmpty) =
      (splitP pyIsSpaceChar (pyStripList ack.data)).filter
        (fun w => !w.isEmpty) := by
    unfold pyStripList
    rw [filter_splitP_dropTrailing pyIsSpaceChar (dropWhileB pyIsSpaceChar ack.data),
      filter_splitP_dropLeading pyIsSpaceChar ack.data]
  rw [hfilter]
  rcases dropWhileB_shape pyIsSpaceChar (dropWhileB pyIsSpaceChar ack.data).reverse
      with hsh | ⟨c, cs, hsh, hc⟩
  · have ht : pyStripList ack.data = [] := by
      unfold pyStripList
      rw [hsh]
      rfl
    rw [ht]
    decide
  · have ht : pyStripList ack.data = cs.reverse ++ [c] := by
      unfold pyStripList
      rw [hsh]
      simp
    rw [ht]
    exact (lastOr_filter_eq (fun w => !w.isEmpty) (by decide)
      (fun w hw => by simpa using hw)
      (splitP pyIsSpaceChar (cs.reverse ++ [c]))
      (lastOr_splitP_concat_ne_nil pyIsSpaceChar c hc cs.reverse)).symm

/-- Witness for C7: the theorem applied at the concrete acknowledgement
`"Submitted batch job 209"`, whose whitespace is all spaces. -/
theorem sbatch_job_id_space_tokens_witness :
    sbatch_job_id "Submitted batch job 209" =
      lastWsToken "Submitted batch job 209" ∧
    sbatch_job_id "Submitted batch job 209" = "209" := by
  exact ⟨(sbatch_job_id_space_tokens "Submitted batch job 209" (by decide)).1,
    (sbatch_job_id_space_tokens "Submitted batch job 209" (by decide)).2⟩

/-! ## C8: placement resolution -/

/-- C8: `get_slurm_job_info` returns `(None, None)` — not an error — when
the scheduler reports an empty node name; otherwise it issues exactly one
name-resolution query on the node name and returns the last space-separated
token of that query's trimmed reply as the address, paired with the node
name. -/
theorem get_job_info_placement (env : SlurmEnv) (jobid : String) :
    (pyStrip (env.squeue_node jobid) = "" →
      get_slurm_job_info env jobid = ((none, none), [])) ∧
    (∀ nm, pyStrip (env.squeue_node jobid) = nm → nm ≠ "" →
      get_slurm_job_info env jobid =
        ((some (lastSpaceToken (pyStrip (env.host_out nm))), some nm), [nm])) := by
  constructor
  · intro h
    simp [get_slurm_job_info, h]
  · intro nm hnm hne
    simp [get_slurm_job_info, hnm, hne]

/-- Witness for C8 at concrete inputs: an unplaced job yields
`(None, None)`, and a job on `node03` resolves through `host` to the last
token of the resolver reply. -/
theorem get_job_info_placement_witness :
    get_slurm_job_info
      ⟨fun _ => "", fun _ => "", fun _ => "", fun _ => ""⟩ "209" =
      ((none, none), []) ∧
    get_slurm_job_info
      ⟨fun _ => "", fun _ => "node03",
        fun _ => "node03 has address 10.0.0.5", fun _ => ""⟩ "209" =
      ((some "10.0.0.5", some "node03"), ["node03"]) := by
  constructor
  · exact (get_job_info_placement _ "209").1 (by decide)
  · have h := (get_job_info_placement
      ⟨fun _ => "", fun _ => "node03",
        fun _ => "node03 has address 10.0.0.5", fun _ => ""⟩ "209").2
      "node03" (by decide) (by decide)
    rw [h]
    decide

/-! ## C9: run_command and the error stream -/

/-- C9: `run_command` returns the trimmed decoded standard output for every
command, because the error stream is never captured — `communicate()`'s
second component is always `None`, so the branch that would return the error
stream (shown on its hypothetical input) is unreachable, and a failed or
diagnostic-producing command with empty standard output is indistinguishable
from an empty successful result. -/
theorem run_command_stdout_only :
    communicate_stderr = none ∧
    (∀ out, run_command out = pyStrip out) ∧
    (∀ e, run_command_branch "out" (some e) = e) ∧
    run_command "" = "" ∧
    run_command " \n " = "" := by
  exact ⟨rfl, fun _ => rfl, fun _ => rfl, by decide, by decide⟩

/-! ## C10: partiality of job discovery -/

/-- C10: `query_slurm_by_jobname` is not total on its query output: the
non-empty output `"209"` consists of exactly one whitespace token, so the
unguarded access to element 1 of the split output is out of bounds and the
call faults (`none`) instead of returning a pair. -/
theorem query_by_jobname_single_token_faults :
    query_slurm_by_jobname "209" = none ∧
    ("209" : String) ≠ "" ∧
    pySplitWsTokens (pyStrip "209") = ["209"] := by
  decide

end SlurmSpawner
